import Mathlib

/-!
Shallow embedding of the influxdb_iox catalog / chunk-lifecycle / wire-format
subsystem, with theorems settling the specification claims.

Sources embedded:
* `server/src/db/catalog/chunk.rs` — the catalog chunk lifecycle state machine
* `server/src/db/catalog.rs` — catalog listings
* `data_types/src/chunk_metadata.rs` — `ChunkOrder`, `ChunkId`, `ChunkSummary`
* `generated_types/src/chunk.rs` — wire-format encode/decode of chunk summaries
* `read_buffer/src/chunk.rs` — read-buffer chunk `column_values`
* `influxdb_iox/src/influxdb_ioxd/http/write.rs` — HTTP write routing

Rust machine integers are modelled as `Nat`/`Int` with explicit bounds where
overflow matters; fallible Rust functions return `Except`; functions that can
panic return `Option` (with `none` marking the panic). External collaborator
code (protobuf helpers, parsers) is passed in as function parameters or, where
the spec fixes its behaviour, defined with a `Modelled from the spec:` comment.
-/

namespace SvrCatalog

/-- The state a catalog chunk is in and what its underlying backing storage
is, from `server/src/db/catalog/chunk.rs`.  The payload types (mutable-buffer
chunk `MB`, read-buffer database `RB`, parquet chunk `PQ`) are opaque to the
state machine and are therefore type parameters.  `Arc` is shared ownership
and is modelled as the identity. -/
inductive ChunkState (MB RB PQ : Type) where
  /-- An invalid chunk state that should not be externally observed. -/
  | Invalid : ChunkState MB RB PQ
  /-- Chunk can accept new writes. -/
  | Open : MB → ChunkState MB RB PQ
  /-- Chunk can still accept new writes, but will likely be closed soon. -/
  | Closing : MB → ChunkState MB RB PQ
  /-- Chunk is closed for new writes and is actively moving to the read buffer. -/
  | Moving : MB → ChunkState MB RB PQ
  /-- Chunk has been completely loaded in the read buffer. -/
  | Moved : RB → ChunkState MB RB PQ
  /-- Chunk is actively writing to object store. -/
  | WritingToObjectStore : RB → ChunkState MB RB PQ
  /-- Chunk has been completely written into object store. -/
  | WrittenToObjectStore : RB → PQ → ChunkState MB RB PQ
deriving DecidableEq

variable {MB RB PQ : Type}

/-- `ChunkState::name`. -/
def ChunkState.name : ChunkState MB RB PQ → String
  | .Invalid => "Invalid"
  | .Open _ => "Open"
  | .Closing _ => "Closing"
  | .Moving _ => "Moving"
  | .Moved _ => "Moved"
  | .WritingToObjectStore _ => "Writing to Object Store"
  | .WrittenToObjectStore _ _ => "Written to Object Store"

/-- The catalog representation of a chunk.  `DateTime<Utc>` values are
modelled as natural-number timestamps; `Utc::now()` is passed into the
operations as an explicit `now` argument. -/
structure Chunk (MB RB PQ : Type) where
  partition_key : String
  id : Nat
  state : ChunkState MB RB PQ
  time_of_first_write : Option Nat
  time_of_last_write : Option Nat
  time_closing : Option Nat
deriving DecidableEq

/-- The `InternalChunkState` error context built by the `unexpected_state!`
macro: (partition_key, chunk_id, operation, expected, actual). -/
structure InternalChunkState where
  partition_key : String
  chunk_id : Nat
  operation : String
  expected : String
  actual : String
deriving DecidableEq

/-- Result of one lifecycle operation: `ok`/`err` carry the chunk as left
after the call; `crash` models a Rust panic (an `assert!` failure), after
which no state is observable. -/
inductive StepResult (MB RB PQ : Type) (α : Type) where
  | ok : α → Chunk MB RB PQ → StepResult MB RB PQ α
  | err : InternalChunkState → Chunk MB RB PQ → StepResult MB RB PQ α
  | crash : StepResult MB RB PQ α
deriving DecidableEq

/-- Builds the `InternalChunkState` error exactly as `unexpected_state!`
does in the error arms of the transition functions: by the time the error is
built the original state has been swapped back in, so `actual` is the name of
the chunk's (unchanged) state. -/
def Chunk.unexpectedState (c : Chunk MB RB PQ) (op expected : String) : InternalChunkState :=
  { partition_key := c.partition_key
    chunk_id := c.id
    operation := op
    expected := expected
    actual := c.state.name }

/-- `Chunk::new`. -/
def Chunk.new (partition_key : String) (id : Nat) (state : ChunkState MB RB PQ) :
    Chunk MB RB PQ :=
  { partition_key := partition_key
    id := id
    state := state
    time_of_first_write := none
    time_of_last_write := none
    time_closing := none }

/-- `Chunk::record_write`: sets `time_of_first_write` if unset and always
updates `time_of_last_write`. -/
def Chunk.record_write (c : Chunk MB RB PQ) (now : Nat) : Chunk MB RB PQ :=
  { c with
    time_of_first_write := if c.time_of_first_write.isNone then some now
                           else c.time_of_first_write
    time_of_last_write := some now }

/-- `Chunk::set_closing`.  From `Open` or `Closing` the code asserts
`time_closing` is unset (panic on failure), stamps it, and installs
`Closing`; from any other state it restores the state and errors. -/
def Chunk.set_closing (c : Chunk MB RB PQ) (now : Nat) : StepResult MB RB PQ Unit :=
  match c.state with
  | .Open s =>
      if c.time_closing.isNone then
        .ok () { c with time_closing := some now, state := .Closing s }
      else .crash
  | .Closing s =>
      if c.time_closing.isNone then
        .ok () { c with time_closing := some now, state := .Closing s }
      else .crash
  | _ => .err (c.unexpectedState "setting closing" "Open or Closing") c

/-- `Chunk::set_moving`: from `Open` or `Closing`, installs `Moving` and
returns a handle to the mutable-buffer payload. -/
def Chunk.set_moving (c : Chunk MB RB PQ) : StepResult MB RB PQ MB :=
  match c.state with
  | .Open s => .ok s { c with state := .Moving s }
  | .Closing s => .ok s { c with state := .Moving s }
  | _ => .err (c.unexpectedState "setting moving" "Open or Closing") c

/-- `Chunk::set_moved`: from `Moving`, installs `Moved db` (discarding the
mutable-buffer payload). -/
def Chunk.set_moved (c : Chunk MB RB PQ) (db : RB) : StepResult MB RB PQ Unit :=
  match c.state with
  | .Moving _ => .ok () { c with state := .Moved db }
  | _ => .err (c.unexpectedState "setting moved" "Moving") c

/-- `Chunk::set_writing_to_object_store`: from `Moved db`, installs
`WritingToObjectStore db` and returns the read-buffer handle. -/
def Chunk.set_writing_to_object_store (c : Chunk MB RB PQ) : StepResult MB RB PQ RB :=
  match c.state with
  | .Moved db => .ok db { c with state := .WritingToObjectStore db }
  | _ => .err (c.unexpectedState "setting object store" "Moved") c

/-- `Chunk::set_written_to_object_store`: from `WritingToObjectStore db`,
installs `WrittenToObjectStore db chunk`. -/
def Chunk.set_written_to_object_store (c : Chunk MB RB PQ) (chunk : PQ) :
    StepResult MB RB PQ Unit :=
  match c.state with
  | .WritingToObjectStore db => .ok () { c with state := .WrittenToObjectStore db chunk }
  | _ => .err (c.unexpectedState "setting object store" "MovingToObjectStore") c

/-- Is the state one of the two mutable states accepted by `set_closing`
and `set_moving`? -/
def ChunkState.isOpenOrClosing : ChunkState MB RB PQ → Bool
  | .Open _ => true
  | .Closing _ => true
  | _ => false

/-- Is the state `Open`? -/
def ChunkState.isOpen : ChunkState MB RB PQ → Bool
  | .Open _ => true
  | _ => false

/-- Is the state `Moving`? -/
def ChunkState.isMoving : ChunkState MB RB PQ → Bool
  | .Moving _ => true
  | _ => false

/-- Is the state `Moved`? -/
def ChunkState.isMoved : ChunkState MB RB PQ → Bool
  | .Moved _ => true
  | _ => false

/-- Is the state `WritingToObjectStore`? -/
def ChunkState.isWritingToObjectStore : ChunkState MB RB PQ → Bool
  | .WritingToObjectStore _ => true
  | _ => false

/-- Is the state one of the six externally meaningful states (anything but
the `Invalid` sentinel)? -/
def ChunkState.isObservableValid : ChunkState MB RB PQ → Bool
  | .Invalid => false
  | _ => true

/-- One invocation of a public lifecycle operation, with its environmental
inputs (`now` for the clock, the payloads handed in by the caller). -/
inductive LifecycleOp (MB RB PQ : Type) where
  | opSetClosing (now : Nat)
  | opSetMoving
  | opSetMoved (db : RB)
  | opSetWritingToObjectStore
  | opSetWrittenToObjectStore (chunk : PQ)
  | opRecordWrite (now : Nat)

/-- Runs one lifecycle operation, discarding the returned handle: the chunk
left behind when the operation completes (with `Ok` or `Err`), or `none` if
it panics. -/
def Chunk.applyOp (c : Chunk MB RB PQ) : LifecycleOp MB RB PQ → Option (Chunk MB RB PQ)
  | .opSetClosing now =>
      match c.set_closing now with
      | .ok _ c' => some c'
      | .err _ c' => some c'
      | .crash => none
  | .opSetMoving =>
      match c.set_moving with
      | .ok _ c' => some c'
      | .err _ c' => some c'
      | .crash => none
  | .opSetMoved db =>
      match c.set_moved db with
      | .ok _ c' => some c'
      | .err _ c' => some c'
      | .crash => none
  | .opSetWritingToObjectStore =>
      match c.set_writing_to_object_store with
      | .ok _ c' => some c'
      | .err _ c' => some c'
      | .crash => none
  | .opSetWrittenToObjectStore chunk =>
      match c.set_written_to_object_store chunk with
      | .ok _ c' => some c'
      | .err _ c' => some c'
      | .crash => none
  | .opRecordWrite now => some (c.record_write now)

/-- Runs a sequence of lifecycle operations through the public interface,
stopping (with `none`) if any of them panics. -/
def Chunk.runOps (c : Chunk MB RB PQ) : List (LifecycleOp MB RB PQ) → Option (Chunk MB RB PQ)
  | [] => some c
  | op :: ops => match c.applyOp op with
    | some c' => c'.runOps ops
    | none => none

end SvrCatalog

namespace Meta

/-- `ChunkOrder` from `data_types/src/chunk_metadata.rs`: a `NonZeroU32`.
The wrapped value is a `Nat`; well-formedness (`0 < val < 2^32`) is the
Rust type invariant, stated separately as `ChunkOrder.wf`. -/
structure ChunkOrder where
  val : Nat
deriving DecidableEq

/-- The `NonZeroU32` type invariant of `ChunkOrder`. -/
def ChunkOrder.wf (o : ChunkOrder) : Prop := 0 < o.val ∧ o.val < 2 ^ 32

/-- `ChunkOrder::new`: `NonZeroU32::new(order).map(Self)` — zero is refused. -/
def ChunkOrder.new (order : Nat) : Option ChunkOrder :=
  if order = 0 then none else some ⟨order⟩

/-- `ChunkOrder::get`. -/
def ChunkOrder.get (o : ChunkOrder) : Nat := o.val

/-- `ChunkOrder::MIN`. -/
def ChunkOrder.MIN : ChunkOrder := ⟨1⟩

/-- `ChunkOrder::MAX` (`u32::MAX`). -/
def ChunkOrder.MAX : ChunkOrder := ⟨2 ^ 32 - 1⟩

/-- `ChunkOrder::next`: `checked_add(1)` on the inner `u32`, which panics
(modelled as `none`) when the value is already `u32::MAX`. -/
def ChunkOrder.next (o : ChunkOrder) : Option ChunkOrder :=
  if o.val = 2 ^ 32 - 1 then none else some ⟨o.val + 1⟩

/-- `ChunkId` from `data_types/src/chunk_metadata.rs` wraps a `Uuid`, which
is exactly 16 bytes; the bytes are the `Uuid`'s canonical byte array.
Well-formedness (16 bytes, each < 256) is the Rust type invariant. -/
structure ChunkId where
  bytes : List Nat
deriving DecidableEq

/-- The `Uuid` type invariant of `ChunkId`. -/
def ChunkId.wf (i : ChunkId) : Prop :=
  i.bytes.length = 16 ∧ ∀ b ∈ i.bytes, b < 256

/-- `ChunkStorage` from `data_types/src/chunk_metadata.rs`. -/
inductive ChunkStorage where
  | OpenMutableBuffer
  | ClosedMutableBuffer
  | ReadBuffer
  | ReadBufferAndObjectStore
  | ObjectStoreOnly
deriving DecidableEq

/-- `ChunkStorage::as_str`. -/
def ChunkStorage.as_str : ChunkStorage → String
  | .OpenMutableBuffer => "OpenMutableBuffer"
  | .ClosedMutableBuffer => "ClosedMutableBuffer"
  | .ReadBuffer => "ReadBuffer"
  | .ReadBufferAndObjectStore => "ReadBufferAndObjectStore"
  | .ObjectStoreOnly => "ObjectStoreOnly"

/-- `ChunkLifecycleAction` from `data_types/src/chunk_metadata.rs`. -/
inductive ChunkLifecycleAction where
  | Persisting
  | Compacting
  | CompactingObjectStore (chunk_id : ChunkId)
  | Dropping
  | LoadingReadBuffer
deriving DecidableEq

/-- `ChunkSummary` from `data_types/src/chunk_metadata.rs`.  `Time` values
are modelled as `Int` nanosecond counts; `usize`/`u64` counters as `Nat`. -/
structure ChunkSummary where
  partition_key : String
  table_name : String
  order : ChunkOrder
  id : ChunkId
  storage : ChunkStorage
  lifecycle_action : Option ChunkLifecycleAction
  memory_bytes : Nat
  object_store_bytes : Nat
  row_count : Nat
  time_of_last_access : Option Int
  time_of_first_write : Int
  time_of_last_write : Int
deriving DecidableEq

end Meta

namespace Wire

/-- `pbjson_types::Timestamp`: protobuf wall-clock time as seconds plus
nanoseconds (both signed on the wire). -/
structure Timestamp where
  seconds : Int
  nanos : Int
deriving DecidableEq

/-- `FieldViolation` (from `generated_types/src/google.rs`, not under
`src/`): a field name plus a description. -/
structure FieldViolation where
  field : String
  description : String
deriving DecidableEq

/-- Modelled from the spec: `FieldViolation::required(field)` — "rejects
malformed protocol messages with field name + description"; the description
used for a missing required field. -/
def FieldViolation.required (field : String) : FieldViolation :=
  { field := field, description := "Field is required" }

/-- Modelled from the spec: `FieldViolationExt::scope` from
`generated_types/src/google.rs` (not under `src/`) prefixes the field path of
a nested violation with the enclosing field name. -/
def FieldViolation.scope (e : FieldViolation) (field : String) : FieldViolation :=
  if e.field = "" then { e with field := field }
  else { e with field := field ++ "." ++ e.field }

/-- `time::Time` (in-memory) is a nanosecond count; `Time::date_time()`
converted `.into()` a protobuf `Timestamp` splits it with floor division, so
`nanos` always lands in `[0, 10^9)`.  (chrono `timestamp()` /
`timestamp_subsec_nanos()` semantics; the conversion crate is an external
collaborator.) -/
def encodeTimestamp (t : Int) : Timestamp :=
  { seconds := t.fdiv 1000000000, nanos := t.fmod 1000000000 }

/-- Modelled from the spec: decoding a wire `Timestamp` back to an in-memory
time — "Timestamps must be non-negative; negative values fail with a
field-violation referencing the field name".  The missing code is the
`TryFrom<pbjson_types::Timestamp> for DateTime<Utc>` impl in
`generated_types/src/google.rs` (not under `src/`). -/
def decodeTimestamp (ts : Timestamp) : Option Int :=
  if ts.seconds < 0 ∨ ts.nanos < 0 then none
  else some (ts.seconds * 1000000000 + ts.nanos)

/-- `convert_timestamp` from `ChunkSummary::try_from`: wraps a failed
timestamp decode in a `FieldViolation` naming the field. -/
def convert_timestamp (ts : Timestamp) (field : String) : Except FieldViolation Int :=
  match decodeTimestamp ts with
  | none => .error { field := field, description := "Timestamp must be positive" }
  | some t => .ok t

/-- The `timestamp` closure: an optional timestamp decodes to `none` when
absent. -/
def timestampOpt (ts : Option Timestamp) (field : String) :
    Except FieldViolation (Option Int) :=
  match ts with
  | none => .ok none
  | some ts => (convert_timestamp ts field).map some

/-- The `required_timestamp` closure: a missing timestamp is a field
violation. -/
def required_timestamp (ts : Option Timestamp) (field : String) :
    Except FieldViolation Int :=
  match ts with
  | none => .error (FieldViolation.required field)
  | some ts => convert_timestamp ts field

/-- The prost-generated `management::ChunkStorage` enum, including the
`Unspecified` wire value. -/
inductive MgmtChunkStorage where
  | Unspecified
  | OpenMutableBuffer
  | ClosedMutableBuffer
  | ReadBuffer
  | ReadBufferAndObjectStore
  | ObjectStoreOnly
deriving DecidableEq

/-- Modelled from the spec: the protobuf discriminants of
`management::ChunkStorage` (the generated prost code is not under `src/`);
`Unspecified` is the protobuf default 0 and the remaining variants are
numbered in declaration order. -/
def MgmtChunkStorage.code : MgmtChunkStorage → Int
  | .Unspecified => 0
  | .OpenMutableBuffer => 1
  | .ClosedMutableBuffer => 2
  | .ReadBuffer => 3
  | .ReadBufferAndObjectStore => 4
  | .ObjectStoreOnly => 5

/-- Modelled from the spec: prost's generated `ChunkStorage::from_i32`,
the partial inverse of `MgmtChunkStorage.code`. -/
def MgmtChunkStorage.from_i32 (i : Int) : Option MgmtChunkStorage :=
  if i = 0 then some .Unspecified
  else if i = 1 then some .OpenMutableBuffer
  else if i = 2 then some .ClosedMutableBuffer
  else if i = 3 then some .ReadBuffer
  else if i = 4 then some .ReadBufferAndObjectStore
  else if i = 5 then some .ObjectStoreOnly
  else none

/-- `impl From<ChunkStorage> for management::ChunkStorage`. -/
def encodeStorage : Meta.ChunkStorage → MgmtChunkStorage
  | .OpenMutableBuffer => .OpenMutableBuffer
  | .ClosedMutableBuffer => .ClosedMutableBuffer
  | .ReadBuffer => .ReadBuffer
  | .ReadBufferAndObjectStore => .ReadBufferAndObjectStore
  | .ObjectStoreOnly => .ObjectStoreOnly

/-- `impl TryFrom<management::ChunkStorage> for ChunkStorage`: rejects the
`Unspecified` wire value with `FieldViolation::required("")`. -/
def tryFromMgmtStorage : MgmtChunkStorage → Except FieldViolation Meta.ChunkStorage
  | .OpenMutableBuffer => .ok .OpenMutableBuffer
  | .ClosedMutableBuffer => .ok .ClosedMutableBuffer
  | .ReadBuffer => .ok .ReadBuffer
  | .ReadBufferAndObjectStore => .ok .ReadBufferAndObjectStore
  | .ObjectStoreOnly => .ok .ObjectStoreOnly
  | .Unspecified => .error (FieldViolation.required "")

/-- The `storage` field decode in `ChunkSummary::try_from`:
`management::ChunkStorage::from_i32(storage).required("storage")`.
Modelled from the spec: `FromOptionalField::required` (in
`generated_types/src/google.rs`, not under `src/`) turns `None` into a
required-field violation and scopes an inner conversion failure with the
field name. -/
def decodeStorageField (i : Int) : Except FieldViolation Meta.ChunkStorage :=
  match MgmtChunkStorage.from_i32 i with
  | none => .error (FieldViolation.required "storage")
  | some s =>
      match tryFromMgmtStorage s with
      | .error e => .error (e.scope "storage")
      | .ok st => .ok st

/-- The prost-generated `management::Action` enum tags. -/
inductive Action where
  | Unspecified
  | Persisting
  | Compacting
  | CompactingObjectStore
  | Dropping
  | LoadingReadBuffer
deriving DecidableEq

/-- Modelled from the spec: the protobuf discriminants of
`management::Action` (the generated prost code is not under `src/`).  Only
injectivity matters: the encoder and decoder compare through the same
mapping. -/
def Action.code : Action → Int
  | .Unspecified => 0
  | .Persisting => 1
  | .Compacting => 2
  | .CompactingObjectStore => 3
  | .Dropping => 4
  | .LoadingReadBuffer => 5

/-- The wire message `management::ChunkLifecycleAction`: an action tag plus
the raw `target_chunk_id` bytes. -/
structure MgmtLifecycleAction where
  action : Int
  target_chunk_id : List Nat
deriving DecidableEq

/-- `impl From<Option<ChunkLifecycleAction>> for
management::ChunkLifecycleAction`.  The code fills `target_chunk_id` with a
freshly generated random `ChunkId` for every variant except
`CompactingObjectStore`; that environmental randomness is the `filler`
argument (always 16 bytes in Rust, since it comes from a `Uuid`). -/
def encodeLifecycleAction (filler : List Nat) :
    Option Meta.ChunkLifecycleAction → MgmtLifecycleAction
  | some .Persisting => { action := Action.Persisting.code, target_chunk_id := filler }
  | some .Compacting => { action := Action.Compacting.code, target_chunk_id := filler }
  | some (.CompactingObjectStore chunk_id) =>
      { action := Action.CompactingObjectStore.code, target_chunk_id := chunk_id.bytes }
  | some .Dropping => { action := Action.Dropping.code, target_chunk_id := filler }
  | some .LoadingReadBuffer =>
      { action := Action.LoadingReadBuffer.code, target_chunk_id := filler }
  | none => { action := Action.Unspecified.code, target_chunk_id := filler }

/-- `impl TryFrom<management::ChunkLifecycleAction> for
Option<ChunkLifecycleAction>`.  The conversion first coerces
`target_chunk_id` into `[u8; 16]` with an unconditional
`unwrap_or_else(panic)` — modelled as `none` — before the action tag is
examined; it then matches the tag with an if/else chain and returns `Ok` in
every case, unknown tags included. -/
def decodeLifecycleAction (m : MgmtLifecycleAction) :
    Option (Except FieldViolation (Option Meta.ChunkLifecycleAction)) :=
  if m.target_chunk_id.length = 16 then
    some (.ok (
      if m.action = Action.Persisting.code then some .Persisting
      else if m.action = Action.Compacting.code then some .Compacting
      else if m.action = Action.CompactingObjectStore.code then
        some (.CompactingObjectStore ⟨m.target_chunk_id⟩)
      else if m.action = Action.LoadingReadBuffer.code then some .LoadingReadBuffer
      else if m.action = Action.Dropping.code then some .Dropping
      else none))
  else none

/-- `impl From<ChunkId> for Bytes`: the 16 `Uuid` bytes. -/
def encodeChunkId (i : Meta.ChunkId) : List Nat := i.bytes

/-- `impl TryFrom<Bytes> for ChunkId` (via `Uuid::from_slice`, which
accepts exactly 16 bytes), scoped to field `"id"` as in
`ChunkSummary::try_from`. -/
def decodeChunkIdField (bytes : List Nat) : Except FieldViolation Meta.ChunkId :=
  if bytes.length = 16 then .ok ⟨bytes⟩
  else .error { field := "id", description := "Cannot convert bytes to chunk ID" }

/-- The wire message `management::Chunk`. -/
structure MgmtChunk where
  partition_key : String
  table_name : String
  id : List Nat
  storage : Int
  lifecycle_action : Option MgmtLifecycleAction
  memory_bytes : Nat
  object_store_bytes : Nat
  row_count : Nat
  time_of_last_access : Option Timestamp
  time_of_first_write : Option Timestamp
  time_of_last_write : Option Timestamp
  order : Nat
deriving DecidableEq

/-- `impl From<ChunkSummary> for management::Chunk`.  `filler` is the random
`ChunkId` generated for the lifecycle-action target field. -/
def encodeChunkSummary (filler : List Nat) (s : Meta.ChunkSummary) : MgmtChunk :=
  { partition_key := s.partition_key
    table_name := s.table_name
    id := encodeChunkId s.id
    storage := (encodeStorage s.storage).code
    lifecycle_action := some (encodeLifecycleAction filler s.lifecycle_action)
    memory_bytes := s.memory_bytes
    object_store_bytes := s.object_store_bytes
    row_count := s.row_count
    time_of_last_access := s.time_of_last_access.map encodeTimestamp
    time_of_first_write := some (encodeTimestamp s.time_of_first_write)
    time_of_last_write := some (encodeTimestamp s.time_of_last_write)
    order := s.order.get }

/-- `impl TryFrom<management::Chunk> for ChunkSummary`.  Fields are decoded
in the order they appear in the Rust struct literal, each `?` aborting with
the first `FieldViolation`; the lifecycle-action length assertion can panic,
modelled as an outer `none`. -/
def decodeChunkSummary (m : MgmtChunk) :
    Option (Except FieldViolation Meta.ChunkSummary) :=
  match decodeChunkIdField m.id with
  | .error e => some (.error e)
  | .ok id =>
  match decodeStorageField m.storage with
  | .error e => some (.error e)
  | .ok storage =>
  match m.lifecycle_action with
  | none => some (.error (FieldViolation.required "lifecycle_action"))
  | some la =>
  match decodeLifecycleAction la with
  | none => none
  | some (.error e) => some (.error (e.scope "lifecycle_action"))
  | some (.ok lifecycle_action) =>
  match timestampOpt m.time_of_last_access "time_of_last_access" with
  | .error e => some (.error e)
  | .ok time_of_last_access =>
  match required_timestamp m.time_of_first_write "time_of_first_write" with
  | .error e => some (.error e)
  | .ok time_of_first_write =>
  match required_timestamp m.time_of_last_write "time_of_last_write" with
  | .error e => some (.error e)
  | .ok time_of_last_write =>
  match Meta.ChunkOrder.new m.order with
  | none => some (.error (FieldViolation.required "order"))
  | some order =>
  some (.ok
    { partition_key := m.partition_key
      table_name := m.table_name
      order := order
      id := id
      storage := storage
      lifecycle_action := lifecycle_action
      memory_bytes := m.memory_bytes
      object_store_bytes := m.object_store_bytes
      row_count := m.row_count
      time_of_last_access := time_of_last_access
      time_of_first_write := time_of_first_write
      time_of_last_write := time_of_last_write })

end Wire

namespace RBuf

/-- `Selection` from the `schema` crate: either all columns or an explicit
column list. -/
inductive Selection where
  | All : Selection
  | Some : List String → Selection

/-- The read-buffer `Error` enum from `read_buffer/src/chunk.rs`, with the
table-level error type `ε` abstract. -/
inductive RBError (ε : Type) where
  | UnsupportedOperation (msg : String)
  | TableError (source : ε)
  | TableSchemaError
  | TableNotFound (table_name : String)
  | ColumnDoesNotExist (column_name : String) (table_name : String)

/-- `read_buffer::Chunk` wraps exactly one table (`read_buffer/src/chunk.rs`).
The table's representation `τ` is abstract; queries against it are passed in
as functions. -/
structure RBChunk (τ : Type) where
  table : τ

/-- `Chunk::column_values` from `read_buffer/src/chunk.rs`.
`tableColumnValues` stands for `Table::column_values` (in
`read_buffer/src/table.rs`, not under `src/`): the chunk-level method either
rejects the `All` selection before consulting the table, or forwards the
`Some` column list to the table and wraps a table error. -/
def RBChunk.column_values {τ π δ ε : Type}
    (tableColumnValues : τ → π → List String → δ → Except ε δ)
    (c : RBChunk τ) (predicate : π) (columns : Selection) (dst : δ) :
    Except (RBError ε) δ :=
  match columns with
  | .All => .error (.UnsupportedOperation "column_values does not support All columns")
  | .Some cols =>
      match tableColumnValues c.table predicate cols dst with
      | .error e => .error (.TableError e)
      | .ok res => .ok res

end RBuf

namespace Http

/-- The query-string payload of a write request
(`influxdb_iox/src/influxdb_ioxd/http/write.rs`). -/
structure WriteInfo where
  org : String
  bucket : String
deriving DecidableEq

/-- `HttpWriteError` from `influxdb_iox/src/influxdb_ioxd/http/write.rs`
(the variants relevant to routing; payloads reduced to the carried
strings). -/
inductive HttpWriteError where
  | BucketMappingError
  | WritingPoints (org : String) (bucket_name : String)
  | ExpectedQueryString
  | InvalidQueryString (query_string : String)
  | ReadingBodyAsUtf8
  | ParsingLineProtocol
  | DatabaseNotFound (db_name : String)
  | ParseBody
deriving DecidableEq

/-- The HTTP error class assigned by `HttpWriteError::to_http_api_error`. -/
inductive HttpErrorClass where
  | internalError
  | invalid
  | notFound
deriving DecidableEq

/-- `impl HttpApiErrorSource for HttpWriteError` — which HTTP class each
routing error maps to.  In the source `ParseBody` delegates to its inner
error's own classification; no claim depends on that case, and it is
approximated here as `invalid` like the other body errors. -/
def HttpWriteError.to_http_api_error : HttpWriteError → HttpErrorClass
  | .BucketMappingError => .internalError
  | .WritingPoints _ _ => .internalError
  | .ExpectedQueryString => .invalid
  | .InvalidQueryString _ => .invalid
  | .ReadingBodyAsUtf8 => .invalid
  | .ParsingLineProtocol => .invalid
  | .DatabaseNotFound _ => .notFound
  | .ParseBody => .invalid

/-- An incoming HTTP request, reduced to the attributes the routing code
inspects; `body` is the byte payload after `parse_body` (gzip handling and
size limiting happen inside `parse_body`, an external collaborator). -/
structure HttpRequest where
  method : String
  path : String
  query : Option String
  body : String
deriving DecidableEq

/-- Result of routing: either the untouched request (no match) or a response
with a status code. -/
inductive RequestOrResponse where
  | request (req : HttpRequest)
  | response (status : Nat)
deriving DecidableEq

/-- Outcome of the inner `write` call (`InnerWriteError` plus success). -/
inductive WriteOutcome where
  | ok
  | notFound
  | otherError
deriving DecidableEq

/-- Outcome of `mutable_batch_lp::lines_to_batches_stats` (an external
collaborator crate), as far as the router distinguishes it: success carrying
the parsed tables `τ`, the `EmptyPayload` error, or any other parse error. -/
inductive LpParseResult (τ : Type) where
  | ok (tables : τ)
  | emptyPayload
  | otherError

/-- `HttpDrivenWrite::route_write_http_request` from
`influxdb_iox/src/influxdb_ioxd/http/write.rs`.  External collaborators are
parameters: `parseQuery` is `serde_urlencoded::from_str`, `lpParse` is
`mutable_batch_lp::lines_to_batches_stats` applied to the body, and
`writeFn` is the server's `write` implementation keyed by database name.
`org_and_bucket_to_database` is modelled from the spec: "database name =
`<O>_<B>`". -/
def route_write_http_request {τ : Type}
    (parseQuery : String → Option WriteInfo)
    (lpParse : String → LpParseResult τ)
    (writeFn : String → WriteOutcome)
    (req : HttpRequest) : Except HttpWriteError RequestOrResponse :=
  if req.method ≠ "POST" ∨ req.path ≠ "/api/v2/write" then
    .ok (.request req)
  else
    match req.query with
    | none => .error .ExpectedQueryString
    | some query =>
      match parseQuery query with
      | none => .error (.InvalidQueryString query)
      | some write_info =>
        let db_name := write_info.org ++ "_" ++ write_info.bucket
        match lpParse req.body with
        | .emptyPayload => .ok (.response 204)
        | .otherError => .error .ParsingLineProtocol
        | .ok _ =>
          match writeFn db_name with
          | .ok => .ok (.response 204)
          | .notFound => .error (.DatabaseNotFound db_name)
          | .otherError => .error (.WritingPoints write_info.org write_info.bucket)

end Http

namespace Cat

/-- Modelled from the spec: a catalog `Table` "owns a map of partition_key →
Partition" (`server/src/db/catalog/table.rs` is not under `src/`); the
partition in turn owns its chunks, abstracted here to the list of values a
chunk-level map would be applied to.  The list order is the map's iteration
order. -/
structure TableModel (χ : Type) where
  partitions : List (String × List χ)

/-- The catalog of `server/src/db/catalog.rs`: a hash map from table name to
table.  A `hashbrown::HashMap` iterates its entries in an arbitrary,
content-dependent order; the model therefore carries the entries in that
iteration order, which is NOT sorted in general. -/
structure Catalog (χ : Type) where
  tables : List (String × TableModel χ)

/-- `Catalog::table_names`: `self.tables.read().keys().map(ToString::to_string)
.collect()` — the hash map's keys in iteration order, with no sorting. -/
def Catalog.table_names {χ : Type} (c : Catalog χ) : List String :=
  c.tables.map (fun t => t.1)

/-- `Catalog::filtered_chunks` with `AllTables` and no partition filter (the
configuration used by `chunk_summaries`): walks tables in map iteration
order, partitions within each table, chunks within each partition, applying
`f` to every chunk. -/
def Catalog.filtered_chunks {χ γ : Type} (c : Catalog χ) (f : χ → γ) : List γ :=
  (c.tables.map (fun t => t.2)).flatMap
    (fun t => t.partitions.flatMap (fun p => p.2.map f))

/-- `Catalog::chunk_summaries`: `filtered_chunks(AllTables, None,
CatalogChunk::summary)`; the chunk-level summary function is a parameter. -/
def Catalog.chunk_summaries {χ γ : Type} (summary : χ → γ) (c : Catalog χ) : List γ :=
  c.filtered_chunks summary

end Cat

/-- Decidable equality for `Except`, needed to evaluate decoder results on
concrete wire messages. -/
instance {e a : Type} [DecidableEq e] [DecidableEq a] : DecidableEq (Except e a)
  | .error x, .error y =>
      if h : x = y then isTrue (congrArg Except.error h)
      else isFalse (fun heq => h (Except.error.inj heq))
  | .error _, .ok _ => isFalse (fun heq => Except.noConfusion heq)
  | .ok _, .error _ => isFalse (fun heq => Except.noConfusion heq)
  | .ok x, .ok y =>
      if h : x = y then isTrue (congrArg Except.ok h)
      else isFalse (fun heq => h (Except.ok.inj heq))

/-! ## Helper lemmas -/

theorem Wire.convert_timestamp_encode (t : Int) (ht : 0 ≤ t) (field : String) :
    Wire.convert_timestamp (Wire.encodeTimestamp t) field = .ok t := by
  have h1 : 0 ≤ t.fdiv 1000000000 := Int.fdiv_nonneg ht (by norm_num)
  have h2 : 0 ≤ t.fmod 1000000000 := Int.fmod_nonneg' t (by norm_num)
  have h3 : t.fdiv 1000000000 * 1000000000 + t.fmod 1000000000 = t := by
    rw [mul_comm]; exact Int.fdiv_add_fmod t 1000000000
  simp only [Wire.convert_timestamp, Wire.decodeTimestamp, Wire.encodeTimestamp]
  rw [if_neg (by push_neg; exact ⟨h1, h2⟩)]
  rw [h3]

theorem Wire.decodeStorageField_encode (st : Meta.ChunkStorage) :
    Wire.decodeStorageField (Wire.encodeStorage st).code = .ok st := by
  cases st <;> rfl

theorem Wire.decodeLifecycleAction_encode (filler : List Nat) (hf : filler.length = 16)
    (a : Option Meta.ChunkLifecycleAction)
    (hcos : ∀ id, a ≠ some (.CompactingObjectStore id)) :
    Wire.decodeLifecycleAction (Wire.encodeLifecycleAction filler a) = some (.ok a) := by
  cases a with
  | none =>
      simp [Wire.encodeLifecycleAction, Wire.decodeLifecycleAction, hf, Wire.Action.code]
  | some act =>
      cases act with
      | CompactingObjectStore id => exact absurd rfl (hcos id)
      | Persisting =>
          simp [Wire.encodeLifecycleAction, Wire.decodeLifecycleAction, hf, Wire.Action.code]
      | Compacting =>
          simp [Wire.encodeLifecycleAction, Wire.decodeLifecycleAction, hf, Wire.Action.code]
      | Dropping =>
          simp [Wire.encodeLifecycleAction, Wire.decodeLifecycleAction, hf, Wire.Action.code]
      | LoadingReadBuffer =>
          simp [Wire.encodeLifecycleAction, Wire.decodeLifecycleAction, hf, Wire.Action.code]

theorem Wire.decodeLifecycleAction_of_len16 (la : Wire.MgmtLifecycleAction)
    (h : la.target_chunk_id.length = 16) :
    ∃ x, Wire.decodeLifecycleAction la = some (.ok x) := by
  unfold Wire.decodeLifecycleAction
  rw [if_pos h]
  exact ⟨_, rfl⟩

theorem SvrCatalog.applyOp_valid {MB RB PQ : Type} (c c' : SvrCatalog.Chunk MB RB PQ)
    (op : SvrCatalog.LifecycleOp MB RB PQ)
    (h : c.state.isObservableValid = true) (happ : c.applyOp op = some c') :
    c'.state.isObservableValid = true := by
  cases op with
  | opSetClosing now =>
      simp only [SvrCatalog.Chunk.applyOp] at happ
      cases hres : c.set_closing now with
      | ok r c0 =>
          rw [hres] at happ
          obtain rfl := Option.some.inj happ
          unfold SvrCatalog.Chunk.set_closing at hres
          cases hs : c.state <;> (try simp only [hs] at hres) <;> (try split at hres) <;>
            first
              | (injection hres with h1 h2 <;>
                 (subst h2; simp_all [SvrCatalog.ChunkState.isObservableValid]))
              | simp at hres
      | err e c0 =>
          rw [hres] at happ
          obtain rfl := Option.some.inj happ
          unfold SvrCatalog.Chunk.set_closing at hres
          cases hs : c.state <;> (try simp only [hs] at hres) <;> (try split at hres) <;>
            first
              | (injection hres with h1 h2 <;>
                 (subst h2; simp_all [SvrCatalog.ChunkState.isObservableValid]))
              | simp at hres
      | crash => rw [hres] at happ; simp at happ
  | opSetMoving =>
      simp only [SvrCatalog.Chunk.applyOp] at happ
      cases hres : c.set_moving with
      | ok r c0 =>
          rw [hres] at happ
          obtain rfl := Option.some.inj happ
          unfold SvrCatalog.Chunk.set_moving at hres
          cases hs : c.state <;> (try simp only [hs] at hres) <;>
            first
              | (injection hres with h1 h2 <;>
                 (subst h2; simp_all [SvrCatalog.ChunkState.isObservableValid]))
              | simp at hres
      | err e c0 =>
          rw [hres] at happ
          obtain rfl := Option.some.inj happ
          unfold SvrCatalog.Chunk.set_moving at hres
          cases hs : c.state <;> (try simp only [hs] at hres) <;>
            first
              | (injection hres with h1 h2 <;>
                 (subst h2; simp_all [SvrCatalog.ChunkState.isObservableValid]))
              | simp at hres
      | crash => rw [hres] at happ; simp at happ
  | opSetMoved db =>
      simp only [SvrCatalog.Chunk.applyOp] at happ
      cases hres : c.set_moved db with
      | ok r c0 =>
          rw [hres] at happ
          obtain rfl := Option.some.inj happ
          unfold SvrCatalog.Chunk.set_moved at hres
          cases hs : c.state <;> (try simp only [hs] at hres) <;>
            first
              | (injection hres with h1 h2 <;>
                 (subst h2; simp_all [SvrCatalog.ChunkState.isObservableValid]))
              | simp at hres
      | err e c0 =>
          rw [hres] at happ
          obtain rfl := Option.some.inj happ
          unfold SvrCatalog.Chunk.set_moved at hres
          cases hs : c.state <;> (try simp only [hs] at hres) <;>
            first
              | (injection hres with h1 h2 <;>
                 (subst h2; simp_all [SvrCatalog.ChunkState.isObservableValid]))
              | simp at hres
      | crash => rw [hres] at happ; simp at happ
  | opSetWritingToObjectStore =>
      simp only [SvrCatalog.Chunk.applyOp] at happ
      cases hres : c.set_writing_to_object_store with
      | ok r c0 =>
          rw [hres] at happ
          obtain rfl := Option.some.inj happ
          unfold SvrCatalog.Chunk.set_writing_to_object_store at hres
          cases hs : c.state <;> (try simp only [hs] at hres) <;>
            first
              | (injection hres with h1 h2 <;>
                 (subst h2; simp_all [SvrCatalog.ChunkState.isObservableValid]))
              | simp at hres
      | err e c0 =>
          rw [hres] at happ
          obtain rfl := Option.some.inj happ
          unfold SvrCatalog.Chunk.set_writing_to_object_store at hres
          cases hs : c.state <;> (try simp only [hs] at hres) <;>
            first
              | (injection hres with h1 h2 <;>
                 (subst h2; simp_all [SvrCatalog.ChunkState.isObservableValid]))
              | simp at hres
      | crash => rw [hres] at happ; simp at happ
  | opSetWrittenToObjectStore pq =>
      simp only [SvrCatalog.Chunk.applyOp] at happ
      cases hres : c.set_written_to_object_store pq with
      | ok r c0 =>
          rw [hres] at happ
          obtain rfl := Option.some.inj happ
          unfold SvrCatalog.Chunk.set_written_to_object_store at hres
          cases hs : c.state <;> (try simp only [hs] at hres) <;>
            first
              | (injection hres with h1 h2 <;>
                 (subst h2; simp_all [SvrCatalog.ChunkState.isObservableValid]))
              | simp at hres
      | err e c0 =>
          rw [hres] at happ
          obtain rfl := Option.some.inj happ
          unfold SvrCatalog.Chunk.set_written_to_object_store at hres
          cases hs : c.state <;> (try simp only [hs] at hres) <;>
            first
              | (injection hres with h1 h2 <;>
                 (subst h2; simp_all [SvrCatalog.ChunkState.isObservableValid]))
              | simp at hres
      | crash => rw [hres] at happ; simp at happ
  | opRecordWrite now =>
      simp only [SvrCatalog.Chunk.applyOp] at happ
      obtain rfl := Option.some.inj happ
      exact h

/-! ## Claim theorems -/

/-- Claim C1: for every catalog chunk, each lifecycle transition invoked from
a state it does not accept returns an `InternalChunkState` error carrying the
partition key, chunk id, operation name, expected state names and actual
state name, and returns the chunk unchanged (the transition is atomic: no
partial update is observable). -/
theorem catalog_chunk_illegal_transition_errors {MB RB PQ : Type}
    (c : SvrCatalog.Chunk MB RB PQ) (now : Nat) (db : RB) (pq : PQ) :
    (c.state.isOpenOrClosing = false →
      c.set_closing now = .err
        ⟨c.partition_key, c.id, "setting closing", "Open or Closing", c.state.name⟩ c) ∧
    (c.state.isOpenOrClosing = false →
      c.set_moving = .err
        ⟨c.partition_key, c.id, "setting moving", "Open or Closing", c.state.name⟩ c) ∧
    (c.state.isMoving = false →
      c.set_moved db = .err
        ⟨c.partition_key, c.id, "setting moved", "Moving", c.state.name⟩ c) ∧
    (c.state.isMoved = false →
      c.set_writing_to_object_store = .err
        ⟨c.partition_key, c.id, "setting object store", "Moved", c.state.name⟩ c) ∧
    (c.state.isWritingToObjectStore = false →
      c.set_written_to_object_store pq = .err
        ⟨c.partition_key, c.id, "setting object store", "MovingToObjectStore",
          c.state.name⟩ c) := by
  refine ⟨?_, ?_, ?_, ?_, ?_⟩ <;> intro hstate <;> cases hs : c.state <;>
    simp_all [SvrCatalog.Chunk.set_closing, SvrCatalog.Chunk.set_moving,
      SvrCatalog.Chunk.set_moved, SvrCatalog.Chunk.set_writing_to_object_store,
      SvrCatalog.Chunk.set_written_to_object_store, SvrCatalog.Chunk.unexpectedState,
      SvrCatalog.ChunkState.isOpenOrClosing, SvrCatalog.ChunkState.isMoving,
      SvrCatalog.ChunkState.isMoved, SvrCatalog.ChunkState.isWritingToObjectStore]

/-- Witness for C1 at a concrete chunk in the `Moved` state. -/
theorem catalog_chunk_illegal_transition_errors_witness :
    (SvrCatalog.ChunkState.Moved () : SvrCatalog.ChunkState Unit Unit Unit).isOpenOrClosing
        = false ∧
    SvrCatalog.Chunk.set_closing
        (⟨"p1", 3, .Moved (), none, none, none⟩ : SvrCatalog.Chunk Unit Unit Unit) 5 =
      .err ⟨"p1", 3, "setting closing", "Open or Closing", "Moved"⟩
        ⟨"p1", 3, .Moved (), none, none, none⟩ :=
  ⟨rfl,
    (catalog_chunk_illegal_transition_errors
      (⟨"p1", 3, .Moved (), none, none, none⟩ : SvrCatalog.Chunk Unit Unit Unit)
      5 () ()).1 rfl⟩

/-- Claim C3: starting from any catalog chunk whose state is not the internal
`Invalid` sentinel, after every sequence of public lifecycle operations that
completes (each step returning `Ok` or `Err`), the chunk's state is one of
`Open`, `Closing`, `Moving`, `Moved`, `WritingToObjectStore` or
`WrittenToObjectStore` — the `Invalid` sentinel is never observable. -/
theorem chunk_state_never_invalid {MB RB PQ : Type}
    (c c' : SvrCatalog.Chunk MB RB PQ) (ops : List (SvrCatalog.LifecycleOp MB RB PQ))
    (h : c.state.isObservableValid = true) (hrun : c.runOps ops = some c') :
    c'.state.isObservableValid = true := by
  induction ops generalizing c with
  | nil =>
      simp only [SvrCatalog.Chunk.runOps] at hrun
      obtain rfl := Option.some.inj hrun
      exact h
  | cons op ops ih =>
      simp only [SvrCatalog.Chunk.runOps] at hrun
      cases happ : c.applyOp op with
      | none => rw [happ] at hrun; simp at hrun
      | some c1 =>
          rw [happ] at hrun
          exact ih c1 (SvrCatalog.applyOp_valid c c1 op h happ) hrun

/-- Witness for C3: the full legal transition sequence from a concrete open
chunk ends in (observably valid) `WrittenToObjectStore`. -/
theorem chunk_state_never_invalid_witness :
    ((⟨"p", 1, .Open (), none, none, none⟩ :
        SvrCatalog.Chunk Unit Unit Unit)).state.isObservableValid = true ∧
    SvrCatalog.Chunk.runOps (⟨"p", 1, .Open (), none, none, none⟩ :
        SvrCatalog.Chunk Unit Unit Unit)
      [.opSetClosing 5, .opSetMoving, .opSetMoved (), .opSetWritingToObjectStore,
        .opSetWrittenToObjectStore ()] =
      some ⟨"p", 1, .WrittenToObjectStore () (), none, none, some 5⟩ ∧
    ((⟨"p", 1, .WrittenToObjectStore () (), none, none, some 5⟩ :
        SvrCatalog.Chunk Unit Unit Unit)).state.isObservableValid = true :=
  ⟨rfl, rfl,
    chunk_state_never_invalid
      (⟨"p", 1, .Open (), none, none, none⟩ : SvrCatalog.Chunk Unit Unit Unit)
      (⟨"p", 1, .WrittenToObjectStore () (), none, none, some 5⟩ :
        SvrCatalog.Chunk Unit Unit Unit)
      [.opSetClosing 5, .opSetMoving, .opSetMoved (), .opSetWritingToObjectStore,
        .opSetWrittenToObjectStore ()] rfl rfl⟩

/-- Claim C4 counterexample: a chunk in the `Closing` state with
`time_closing` unset (constructible through `Chunk::new`, which accepts an
arbitrary initial state) is not in the `Open` state, yet `set_closing`
succeeds instead of failing with an `InternalChunkState` error. -/
theorem set_closing_not_only_from_open_counterexample :
    (SvrCatalog.ChunkState.Closing () : SvrCatalog.ChunkState Unit Unit Unit).isOpen
        = false ∧
    SvrCatalog.Chunk.set_closing
        (⟨"p1", 7, .Closing (), none, none, none⟩ : SvrCatalog.Chunk Unit Unit Unit) 5 =
      .ok () ⟨"p1", 7, .Closing (), none, none, some 5⟩ :=
  ⟨rfl, rfl⟩

/-- Claim C4 (amended): `set_closing` succeeds exactly when the chunk is in
`Open` or `Closing` with `time_closing` unset, installing `Closing` and
stamping `time_closing`; from `Open`/`Closing` with `time_closing` already
set the `assert!` fails (panic); from every other state it fails with an
`InternalChunkState` error and leaves the chunk (state and `time_closing`)
unchanged. -/
theorem set_closing_behaviour {MB RB PQ : Type}
    (c : SvrCatalog.Chunk MB RB PQ) (now : Nat) :
    (∀ s, (c.state = .Open s ∨ c.state = .Closing s) → c.time_closing = none →
      c.set_closing now = .ok () { c with state := .Closing s, time_closing := some now }) ∧
    (∀ s, (c.state = .Open s ∨ c.state = .Closing s) → c.time_closing ≠ none →
      c.set_closing now = .crash) ∧
    (c.state.isOpenOrClosing = false →
      c.set_closing now = .err
        ⟨c.partition_key, c.id, "setting closing", "Open or Closing", c.state.name⟩ c) := by
  refine ⟨?_, ?_, ?_⟩
  · intro s hs htc
    rcases hs with hs | hs <;> simp [SvrCatalog.Chunk.set_closing, hs, htc]
  · intro s hs htc
    rcases hs with hs | hs <;>
      simp [SvrCatalog.Chunk.set_closing, hs, Option.isNone_iff_eq_none, htc]
  · intro hstate
    cases hs : c.state <;>
      simp_all [SvrCatalog.Chunk.set_closing, SvrCatalog.Chunk.unexpectedState,
        SvrCatalog.ChunkState.isOpenOrClosing]

/-- Witness for C4 (amended) at a concrete open chunk. -/
theorem set_closing_behaviour_witness :
    ((⟨"p", 2, .Open (), none, none, none⟩ :
        SvrCatalog.Chunk Unit Unit Unit).state = .Open () ∨
      (⟨"p", 2, .Open (), none, none, none⟩ :
        SvrCatalog.Chunk Unit Unit Unit).state = .Closing ()) ∧
    (⟨"p", 2, .Open (), none, none, none⟩ :
        SvrCatalog.Chunk Unit Unit Unit).time_closing = none ∧
    SvrCatalog.Chunk.set_closing
        (⟨"p", 2, .Open (), none, none, none⟩ : SvrCatalog.Chunk Unit Unit Unit) 9 =
      .ok () ⟨"p", 2, .Closing (), none, none, some 9⟩ :=
  ⟨Or.inl rfl, rfl,
    (set_closing_behaviour (⟨"p", 2, .Open (), none, none, none⟩ :
        SvrCatalog.Chunk Unit Unit Unit) 9).1 () (Or.inl rfl) rfl⟩

/-- Claim C7: `ChunkOrder` is a positive 32-bit integer: `new 0` is `None`
while `new n` for `n ≥ 1` is `Some` with value `n`; `MIN` is 1 and `MAX` is
`2^32 - 1`; `next()` fails (panics) at `MAX` and returns the order plus one
below `MAX`. -/
theorem chunk_order_positive_u32 :
    Meta.ChunkOrder.new 0 = none ∧
    (∀ n : Nat, 1 ≤ n → Meta.ChunkOrder.new n = some ⟨n⟩) ∧
    Meta.ChunkOrder.MIN.get = 1 ∧
    Meta.ChunkOrder.MAX.get = 2 ^ 32 - 1 ∧
    Meta.ChunkOrder.next Meta.ChunkOrder.MAX = none ∧
    (∀ o : Meta.ChunkOrder, o.get < 2 ^ 32 - 1 → o.next = some ⟨o.get + 1⟩) := by
  refine ⟨rfl, ?_, rfl, rfl, ?_, ?_⟩
  · intro n hn
    simp [Meta.ChunkOrder.new, Nat.one_le_iff_ne_zero.mp hn]
  · simp [Meta.ChunkOrder.next, Meta.ChunkOrder.MAX]
  · intro o h
    have h2 : o.val ≠ 2 ^ 32 - 1 := Nat.ne_of_lt h
    unfold Meta.ChunkOrder.next
    rw [if_neg h2]
    rfl

/-- Witness for C7 at concrete orders 5 and 3. -/
theorem chunk_order_positive_u32_witness :
    1 ≤ 5 ∧ Meta.ChunkOrder.new 5 = some ⟨5⟩ ∧
    Meta.ChunkOrder.get ⟨3⟩ < 2 ^ 32 - 1 ∧
    Meta.ChunkOrder.next ⟨3⟩ = some ⟨4⟩ :=
  ⟨by norm_num, chunk_order_positive_u32.2.1 5 (by norm_num),
    by norm_num [Meta.ChunkOrder.get],
    chunk_order_positive_u32.2.2.2.2.2 ⟨3⟩ (by norm_num [Meta.ChunkOrder.get])⟩

/-- Claim C8: `column_values` with the `All` selection returns an
`UnsupportedOperation` error, and the result is independent of the chunk's
table and of the table-level `column_values` implementation (the row-group
data is never consulted); with a `Some` selection the call is forwarded to
the table. -/
theorem column_values_rejects_all_selection {τ π δ ε : Type}
    (tcv tcv' : τ → π → List String → δ → Except ε δ)
    (c c' : RBuf.RBChunk τ) (pred pred' : π) (dst : δ) :
    RBuf.RBChunk.column_values tcv c pred .All dst =
      Except.error (.UnsupportedOperation "column_values does not support All columns") ∧
    RBuf.RBChunk.column_values tcv c pred .All dst =
      RBuf.RBChunk.column_values tcv' c' pred' .All dst ∧
    (∀ cols, RBuf.RBChunk.column_values tcv c pred (.Some cols) dst =
      match tcv c.table pred cols dst with
      | .error e => .error (.TableError e)
      | .ok res => .ok res) :=
  ⟨rfl, rfl, fun _ => rfl⟩

/-- Claim C10: decoding a wire `ChunkLifecycleAction` whose `target_chunk_id`
is not exactly 16 bytes long panics (the unconditional length assertion,
modelled as `none`), for every action tag, instead of returning a
`FieldViolation` error. -/
theorem lifecycle_action_decode_length_check_panics
    (m : Wire.MgmtLifecycleAction) (h : m.target_chunk_id.length ≠ 16) :
    Wire.decodeLifecycleAction m = none := by
  unfold Wire.decodeLifecycleAction
  exact if_neg h

/-- Witness for C10: an empty `target_chunk_id` under the `Persisting` tag,
which itself ignores the target id, still panics. -/
theorem lifecycle_action_decode_length_check_panics_witness :
    (Wire.MgmtLifecycleAction.mk Wire.Action.Persisting.code []).target_chunk_id.length
        ≠ 16 ∧
    Wire.decodeLifecycleAction ⟨Wire.Action.Persisting.code, []⟩ = none :=
  ⟨by decide,
    lifecycle_action_decode_length_check_panics ⟨Wire.Action.Persisting.code, []⟩ (by decide)⟩

/-- Claim C5 counterexample: `table_names` returns the hash map's keys in
iteration order without sorting; a catalog whose map happens to iterate
`"b"` before `"a"` yields the unsorted sequence `["b", "a"]`. -/
theorem table_names_not_sorted_counterexample :
    Cat.Catalog.table_names (χ := Unit) ⟨[("b", ⟨[]⟩), ("a", ⟨[]⟩)]⟩ = ["b", "a"] ∧
    ¬ List.Sorted (fun x y : String => x ≤ y)
        (Cat.Catalog.table_names (χ := Unit) ⟨[("b", ⟨[]⟩), ("a", ⟨[]⟩)]⟩) := by
  refine ⟨rfl, fun hsorted => ?_⟩
  have hba : ("b" : String) ≤ "a" :=
    (List.sorted_cons.mp hsorted).1 "a" (by simp)
  have hnot : ¬ (("b" : String) ≤ "a") := by
    simp [String.le_iff_toList_le]
    decide
  exact hnot hba

/-- Claim C5 (amended): within a single snapshot the listings are
deterministic functions of the catalog — `table_names` is exactly the key
sequence in map iteration order (hence a permutation of its sorted version:
the same names, the same number of times), and `chunk_summaries` is exactly
the `filtered_chunks` traversal — but the sequence follows the hash map's
arbitrary iteration order and is not sorted by key. -/
theorem table_names_deterministic_unsorted {χ γ : Type} (c : Cat.Catalog χ)
    (f : χ → γ) :
    Cat.Catalog.table_names c = c.tables.map (fun t => t.1) ∧
    (Cat.Catalog.table_names c).Perm
      (List.insertionSort (fun x y : String => x ≤ y) (Cat.Catalog.table_names c)) ∧
    Cat.Catalog.chunk_summaries f c = Cat.Catalog.filtered_chunks c f :=
  ⟨rfl, (List.perm_insertionSort _ _).symm, rfl⟩

/-- Claim C9: for a `POST /api/v2/write` whose query string parses to an org
and bucket, an empty line-protocol payload yields `204 No Content` and the
underlying write operation is never invoked (the result is the same for
every write implementation, so no database state can change); a request
with no query string fails with `ExpectedQueryString`, classified invalid. -/
theorem route_write_empty_payload_no_write {τ : Type}
    (parseQuery : String → Option Http.WriteInfo)
    (lpParse : String → Http.LpParseResult τ)
    (writeFn writeFn' : String → Http.WriteOutcome)
    (req : Http.HttpRequest) (q : String) (info : Http.WriteInfo)
    (hm : req.method = "POST") (hp : req.path = "/api/v2/write")
    (hq : req.query = some q) (hinfo : parseQuery q = some info)
    (hlp : lpParse req.body = .emptyPayload) :
    Http.route_write_http_request parseQuery lpParse writeFn req = .ok (.response 204) ∧
    Http.route_write_http_request parseQuery lpParse writeFn req =
      Http.route_write_http_request parseQuery lpParse writeFn' req ∧
    (∀ req' : Http.HttpRequest, req'.method = "POST" → req'.path = "/api/v2/write" →
      req'.query = none →
      Http.route_write_http_request parseQuery lpParse writeFn req' =
        .error .ExpectedQueryString) ∧
    Http.HttpWriteError.to_http_api_error .ExpectedQueryString = .invalid := by
  refine ⟨?_, ?_, ?_, rfl⟩
  · simp [Http.route_write_http_request, hm, hp, hq, hinfo, hlp]
  · simp [Http.route_write_http_request, hm, hp, hq, hinfo, hlp]
  · intro req' hm' hp' hq'
    simp [Http.route_write_http_request, hm', hp', hq']

/-- Witness for C9 at a concrete request with an empty body. -/
theorem route_write_empty_payload_no_write_witness :
    (Http.HttpRequest.mk "POST" "/api/v2/write" (some "org=o&bucket=b") "").method
        = "POST" ∧
    (Http.HttpRequest.mk "POST" "/api/v2/write" (some "org=o&bucket=b") "").path
        = "/api/v2/write" ∧
    (Http.HttpRequest.mk "POST" "/api/v2/write" (some "org=o&bucket=b") "").query
        = some "org=o&bucket=b" ∧
    Http.route_write_http_request (τ := Unit)
      (fun _ => some ⟨"o", "b"⟩) (fun _ => .emptyPayload) (fun _ => .ok)
      ⟨"POST", "/api/v2/write", some "org=o&bucket=b", ""⟩ = .ok (.response 204) :=
  ⟨rfl, rfl, rfl,
    (route_write_empty_payload_no_write (τ := Unit)
      (fun _ => some ⟨"o", "b"⟩) (fun _ => .emptyPayload) (fun _ => .ok) (fun _ => .ok)
      ⟨"POST", "/api/v2/write", some "org=o&bucket=b", ""⟩
      "org=o&bucket=b" ⟨"o", "b"⟩ rfl rfl rfl rfl rfl).1⟩

theorem Wire.convert_timestamp_neg (ts : Wire.Timestamp)
    (h : ts.seconds < 0 ∨ ts.nanos < 0) (field : String) :
    Wire.convert_timestamp ts field = .error ⟨field, "Timestamp must be positive"⟩ := by
  unfold Wire.convert_timestamp Wire.decodeTimestamp
  rw [if_pos h]

theorem Wire.decodeChunkIdField_ok (bytes : List Nat) (h : bytes.length = 16) :
    Wire.decodeChunkIdField bytes = .ok ⟨bytes⟩ := by
  unfold Wire.decodeChunkIdField
  rw [if_pos h]

theorem Wire.decodeChunkIdField_encode (i : Meta.ChunkId) (h : i.bytes.length = 16) :
    Wire.decodeChunkIdField (Wire.encodeChunkId i) = .ok i :=
  Wire.decodeChunkIdField_ok i.bytes h

theorem Meta.ChunkOrder.new_get (o : Meta.ChunkOrder) (h : 0 < o.val) :
    Meta.ChunkOrder.new o.val = some o := by
  unfold Meta.ChunkOrder.new
  rw [if_neg (Nat.pos_iff_ne_zero.mp h)]

theorem Wire.timestampOpt_encode (t : Option Int) (h : ∀ x, t = some x → 0 ≤ x)
    (field : String) :
    Wire.timestampOpt (t.map Wire.encodeTimestamp) field = .ok t := by
  cases t with
  | none => rfl
  | some x =>
      simp [Wire.timestampOpt, Wire.convert_timestamp_encode x (h x rfl) field,
        Except.map]

theorem Wire.required_timestamp_encode (t : Int) (h : 0 ≤ t) (field : String) :
    Wire.required_timestamp (some (Wire.encodeTimestamp t)) field = .ok t := by
  simp [Wire.required_timestamp, Wire.convert_timestamp_encode t h field]

/-- Claim C2 counterexample: a summary carrying a negative (pre-epoch)
`time_of_first_write` does not round-trip — decoding the encoded message
fails with the timestamp field violation instead of yielding the summary. -/
theorem chunk_summary_roundtrip_negative_time_counterexample :
    Wire.decodeChunkSummary (Wire.encodeChunkSummary (List.replicate 16 0)
        ⟨"p", "t", ⟨1⟩, ⟨List.replicate 16 0⟩, .OpenMutableBuffer, none, 0, 0, 0,
          none, -1, 0⟩) =
      some (.error ⟨"time_of_first_write", "Timestamp must be positive"⟩) ∧
    some (Except.error (⟨"time_of_first_write", "Timestamp must be positive"⟩ :
        Wire.FieldViolation)) ≠
      some (Except.ok (⟨"p", "t", ⟨1⟩, ⟨List.replicate 16 0⟩, .OpenMutableBuffer,
        none, 0, 0, 0, none, -1, 0⟩ : Meta.ChunkSummary)) := by
  constructor
  · decide
  · decide

/-- Claim C2 (amended): every `ChunkSummary` whose lifecycle action is not
the `CompactingObjectStore` variant and whose timestamps are non-negative
round-trips through the wire encoding with all fields (partition key, table
name, id, storage, lifecycle action, byte counts, row count, timestamps,
order) preserved.  `hid` and `hfiller` state the `Uuid` 16-byte type
invariant and `horder` the `NonZeroU32` invariant. -/
theorem chunk_summary_roundtrip (s : Meta.ChunkSummary) (filler : List Nat)
    (hid : s.id.bytes.length = 16)
    (hfiller : filler.length = 16)
    (horder : 0 < s.order.val)
    (hcos : ∀ i, s.lifecycle_action ≠ some (.CompactingObjectStore i))
    (hfw : 0 ≤ s.time_of_first_write)
    (hlw : 0 ≤ s.time_of_last_write)
    (hla : ∀ t, s.time_of_last_access = some t → 0 ≤ t) :
    Wire.decodeChunkSummary (Wire.encodeChunkSummary filler s) = some (.ok s) := by
  unfold Wire.encodeChunkSummary Wire.decodeChunkSummary
  simp only [Wire.decodeChunkIdField_encode s.id hid,
    Wire.decodeStorageField_encode s.storage,
    Wire.decodeLifecycleAction_encode filler hfiller s.lifecycle_action hcos,
    Wire.timestampOpt_encode s.time_of_last_access hla "time_of_last_access",
    Wire.required_timestamp_encode s.time_of_first_write hfw "time_of_first_write",
    Wire.required_timestamp_encode s.time_of_last_write hlw "time_of_last_write",
    Meta.ChunkOrder.new_get s.order horder, Meta.ChunkOrder.get]

/-- Witness for C2 at a concrete summary (mirroring the repository's wire
round-trip test values: partition `foo`, table `bar`, id 42, storage
`ObjectStoreOnly`, action `Compacting`, order 5). -/
theorem chunk_summary_roundtrip_witness :
    (Meta.ChunkId.mk (List.replicate 15 0 ++ [42])).bytes.length = 16 ∧
    (List.replicate 16 7).length = 16 ∧
    0 < (Meta.ChunkOrder.mk 5).val ∧
    Wire.decodeChunkSummary (Wire.encodeChunkSummary (List.replicate 16 7)
        ⟨"foo", "bar", ⟨5⟩, ⟨List.replicate 15 0 ++ [42]⟩, .ObjectStoreOnly,
          some .Compacting, 1234, 567, 321, some 50000000007, 2000000006,
          2000000006⟩) =
      some (.ok ⟨"foo", "bar", ⟨5⟩, ⟨List.replicate 15 0 ++ [42]⟩, .ObjectStoreOnly,
        some .Compacting, 1234, 567, 321, some 50000000007, 2000000006,
        2000000006⟩) := by
  refine ⟨by decide, by decide, by decide, ?_⟩
  exact chunk_summary_roundtrip
    ⟨"foo", "bar", ⟨5⟩, ⟨List.replicate 15 0 ++ [42]⟩, .ObjectStoreOnly,
      some .Compacting, 1234, 567, 321, some 50000000007, 2000000006, 2000000006⟩
    (List.replicate 16 7)
    (by decide) (by decide) (by decide)
    (by intro i h; simp at h)
    (by norm_num) (by norm_num)
    (by intro t h; obtain rfl := Option.some.inj h; norm_num)

/-- Claim C6: decoding a wire chunk summary fails with a `FieldViolation`
referencing the offending field: with the earlier fields valid (decoding
aborts at the first violation, in field order), a negative carried timestamp
names that timestamp's field, the `Unspecified` storage wire value (0) names
`storage`, and a zero `order` names `order`. -/
theorem wire_decode_field_violations (m : Wire.MgmtChunk) :
    (m.id.length = 16 → m.storage = 0 →
      Wire.decodeChunkSummary m = some (.error ⟨"storage", "Field is required"⟩)) ∧
    (∀ la ts, m.id.length = 16 →
      (Wire.decodeStorageField m.storage).isOk = true →
      m.lifecycle_action = some la → la.target_chunk_id.length = 16 →
      m.time_of_last_access = some ts → (ts.seconds < 0 ∨ ts.nanos < 0) →
      Wire.decodeChunkSummary m =
        some (.error ⟨"time_of_last_access", "Timestamp must be positive"⟩)) ∧
    (∀ la ts, m.id.length = 16 →
      (Wire.decodeStorageField m.storage).isOk = true →
      m.lifecycle_action = some la → la.target_chunk_id.length = 16 →
      (Wire.timestampOpt m.time_of_last_access "time_of_last_access").isOk = true →
      m.time_of_first_write = some ts → (ts.seconds < 0 ∨ ts.nanos < 0) →
      Wire.decodeChunkSummary m =
        some (.error ⟨"time_of_first_write", "Timestamp must be positive"⟩)) ∧
    (∀ la ts, m.id.length = 16 →
      (Wire.decodeStorageField m.storage).isOk = true →
      m.lifecycle_action = some la → la.target_chunk_id.length = 16 →
      (Wire.timestampOpt m.time_of_last_access "time_of_last_access").isOk = true →
      (Wire.required_timestamp m.time_of_first_write "time_of_first_write").isOk = true →
      m.time_of_last_write = some ts → (ts.seconds < 0 ∨ ts.nanos < 0) →
      Wire.decodeChunkSummary m =
        some (.error ⟨"time_of_last_write", "Timestamp must be positive"⟩)) ∧
    (∀ la, m.id.length = 16 →
      (Wire.decodeStorageField m.storage).isOk = true →
      m.lifecycle_action = some la → la.target_chunk_id.length = 16 →
      (Wire.timestampOpt m.time_of_last_access "time_of_last_access").isOk = true →
      (Wire.required_timestamp m.time_of_first_write "time_of_first_write").isOk = true →
      (Wire.required_timestamp m.time_of_last_write "time_of_last_write").isOk = true →
      m.order = 0 →
      Wire.decodeChunkSummary m = some (.error ⟨"order", "Field is required"⟩)) := by
  refine ⟨?_, ?_, ?_, ?_, ?_⟩
  · intro hid hst
    unfold Wire.decodeChunkSummary
    rw [Wire.decodeChunkIdField_ok m.id hid, hst]
    rfl
  · intro la ts hid hst hla hlen hts hneg
    obtain ⟨st, hstv⟩ : ∃ st, Wire.decodeStorageField m.storage = .ok st := by
      cases hstv : Wire.decodeStorageField m.storage with
      | error e => rw [hstv] at hst; simp [Except.isOk, Except.toBool] at hst
      | ok st => exact ⟨st, rfl⟩
    obtain ⟨x, hdec⟩ := Wire.decodeLifecycleAction_of_len16 la hlen
    unfold Wire.decodeChunkSummary
    simp only [Wire.decodeChunkIdField_ok m.id hid, hstv, hla, hdec, hts]
    simp [Wire.timestampOpt, Wire.convert_timestamp_neg ts hneg, Except.map]
  · intro la ts hid hst hla hlen hacc hts hneg
    obtain ⟨st, hstv⟩ : ∃ st, Wire.decodeStorageField m.storage = .ok st := by
      cases hstv : Wire.decodeStorageField m.storage with
      | error e => rw [hstv] at hst; simp [Except.isOk, Except.toBool] at hst
      | ok st => exact ⟨st, rfl⟩
    obtain ⟨x, hdec⟩ := Wire.decodeLifecycleAction_of_len16 la hlen
    obtain ⟨acc, haccv⟩ :
        ∃ acc, Wire.timestampOpt m.time_of_last_access "time_of_last_access" = .ok acc := by
      cases haccv : Wire.timestampOpt m.time_of_last_access "time_of_last_access" with
      | error e => rw [haccv] at hacc; simp [Except.isOk, Except.toBool] at hacc
      | ok acc => exact ⟨acc, rfl⟩
    unfold Wire.decodeChunkSummary
    simp only [Wire.decodeChunkIdField_ok m.id hid, hstv, hla, hdec, haccv, hts]
    simp [Wire.required_timestamp, Wire.convert_timestamp_neg ts hneg]
  · intro la ts hid hst hla hlen hacc hfw hts hneg
    obtain ⟨st, hstv⟩ : ∃ st, Wire.decodeStorageField m.storage = .ok st := by
      cases hstv : Wire.decodeStorageField m.storage with
      | error e => rw [hstv] at hst; simp [Except.isOk, Except.toBool] at hst
      | ok st => exact ⟨st, rfl⟩
    obtain ⟨x, hdec⟩ := Wire.decodeLifecycleAction_of_len16 la hlen
    obtain ⟨acc, haccv⟩ :
        ∃ acc, Wire.timestampOpt m.time_of_last_access "time_of_last_access" = .ok acc := by
      cases haccv : Wire.timestampOpt m.time_of_last_access "time_of_last_access" with
      | error e => rw [haccv] at hacc; simp [Except.isOk, Except.toBool] at hacc
      | ok acc => exact ⟨acc, rfl⟩
    obtain ⟨fw, hfwv⟩ :
        ∃ fw, Wire.required_timestamp m.time_of_first_write "time_of_first_write"
          = .ok fw := by
      cases hfwv : Wire.required_timestamp m.time_of_first_write "time_of_first_write" with
      | error e => rw [hfwv] at hfw; simp [Except.isOk, Except.toBool] at hfw
      | ok fw => exact ⟨fw, rfl⟩
    unfold Wire.decodeChunkSummary
    simp only [Wire.decodeChunkIdField_ok m.id hid, hstv, hla, hdec, haccv, hfwv, hts]
    simp [Wire.required_timestamp, Wire.convert_timestamp_neg ts hneg]
  · intro la hid hst hla hlen hacc hfw hlw horder
    obtain ⟨st, hstv⟩ : ∃ st, Wire.decodeStorageField m.storage = .ok st := by
      cases hstv : Wire.decodeStorageField m.storage with
      | error e => rw [hstv] at hst; simp [Except.isOk, Except.toBool] at hst
      | ok st => exact ⟨st, rfl⟩
    obtain ⟨x, hdec⟩ := Wire.decodeLifecycleAction_of_len16 la hlen
    obtain ⟨acc, haccv⟩ :
        ∃ acc, Wire.timestampOpt m.time_of_last_access "time_of_last_access" = .ok acc := by
      cases haccv : Wire.timestampOpt m.time_of_last_access "time_of_last_access" with
      | error e => rw [haccv] at hacc; simp [Except.isOk, Except.toBool] at hacc
      | ok acc => exact ⟨acc, rfl⟩
    obtain ⟨fw, hfwv⟩ :
        ∃ fw, Wire.required_timestamp m.time_of_first_write "time_of_first_write"
          = .ok fw := by
      cases hfwv : Wire.required_timestamp m.time_of_first_write "time_of_first_write" with
      | error e => rw [hfwv] at hfw; simp [Except.isOk, Except.toBool] at hfw
      | ok fw => exact ⟨fw, rfl⟩
    obtain ⟨lw, hlwv⟩ :
        ∃ lw, Wire.required_timestamp m.time_of_last_write "time_of_last_write"
          = .ok lw := by
      cases hlwv : Wire.required_timestamp m.time_of_last_write "time_of_last_write" with
      | error e => rw [hlwv] at hlw; simp [Except.isOk, Except.toBool] at hlw
      | ok lw => exact ⟨lw, rfl⟩
    unfold Wire.decodeChunkSummary
    simp only [Wire.decodeChunkIdField_ok m.id hid, hstv, hla, hdec, haccv, hfwv, hlwv,
      horder]
    simp [Meta.ChunkOrder.new, Wire.FieldViolation.required]

/-- Witness for C6: a concrete message with the `Unspecified` storage value
is rejected naming `storage`, and one with zero `order` is rejected naming
`order`. -/
theorem wire_decode_field_violations_witness :
    (Wire.MgmtChunk.mk "p" "t" (List.replicate 16 0) 0
        (some ⟨1, List.replicate 16 0⟩) 0 0 0 none (some ⟨0, 0⟩) (some ⟨0, 0⟩) 5).id.length
      = 16 ∧
    Wire.decodeChunkSummary
        ⟨"p", "t", List.replicate 16 0, 0, some ⟨1, List.replicate 16 0⟩, 0, 0, 0,
          none, some ⟨0, 0⟩, some ⟨0, 0⟩, 5⟩ =
      some (.error ⟨"storage", "Field is required"⟩) ∧
    Wire.decodeChunkSummary
        ⟨"p", "t", List.replicate 16 0, 5, some ⟨1, List.replicate 16 0⟩, 0, 0, 0,
          none, some ⟨0, 0⟩, some ⟨0, 0⟩, 0⟩ =
      some (.error ⟨"order", "Field is required"⟩) := by
  refine ⟨by decide, ?_, ?_⟩
  · exact (wire_decode_field_violations
      ⟨"p", "t", List.replicate 16 0, 0, some ⟨1, List.replicate 16 0⟩, 0, 0, 0,
        none, some ⟨0, 0⟩, some ⟨0, 0⟩, 5⟩).1 (by decide) rfl
  · exact (wire_decode_field_violations
      ⟨"p", "t", List.replicate 16 0, 5, some ⟨1, List.replicate 16 0⟩, 0, 0, 0,
        none, some ⟨0, 0⟩, some ⟨0, 0⟩, 0⟩).2.2.2.2 ⟨1, List.replicate 16 0⟩
      (by decide) (by decide) rfl (by decide) (by decide) (by decide) (by decide) rfl
